import Mathlib

/-!
Verification of the highway-delite notes frontend against its
natural-language specification.  The definitions below are shallow
embeddings of the TypeScript source: pure functions over explicit
inputs, with every network call, thrown exception and browser side
effect (navigation, localStorage) made an explicit value.
-/

namespace HdNotes

/-! Data model, transcribed from the TypeScript interface declarations. -/

/-- JavaScript string-or-fallback, modelling the idiom
written with two vertical bars in the source: the fallback is used
both when the value is absent and when it is the empty string
(which is falsy in JavaScript). -/
def jsOr (s : Option String) (fallback : String) : String :=
  match s with
  | some v => if v = "" then fallback else v
  | none => fallback

/-- JavaScript String.prototype.trim: whitespace stripped from both
ends.  Written over the character list so that the kernel can evaluate
it on concrete strings. -/
def jsTrim (s : String) : String :=
  String.mk (((s.toList.dropWhile Char.isWhitespace).reverse.dropWhile
    Char.isWhitespace).reverse)

/-- JavaScript String.prototype.startsWith, over the character list. -/
def jsStartsWith (s p : String) : Bool :=
  p.toList.isPrefixOf s.toList

/-- JavaScript String.prototype.substring with only a start index, over
the character list. -/
def jsSubstringFrom (s : String) (n : Nat) : String :=
  String.mk (s.toList.drop n)

namespace Api

/-- User interface exported by the API service module (src/lib/api.ts). -/
structure User where
  id : String
  email : String
  name : String
  dob : String
  isVerified : Bool
  createdAt : String
deriving Repr, DecidableEq

/-- Field names of the User interface in src/lib/api.ts, in declaration
order, transcribed from the source. -/
def userFields : List String :=
  ["id", "email", "name", "dob", "isVerified", "createdAt"]

/-- Note interface of src/lib/api.ts. -/
structure Note where
  id : String
  title : String
  content : String
  createdAt : String
  updatedAt : String
deriving Repr, DecidableEq

/-- Field names of the Note interface, in declaration order. -/
def noteFields : List String :=
  ["id", "title", "content", "createdAt", "updatedAt"]

end Api

namespace AuthServer

/-- User interface declared locally in the server auth helper module. -/
structure User where
  id : String
  email : String
  name : String
  isVerified : Bool
  createdAt : String
deriving Repr, DecidableEq

/-- Field names of the auth-server User interface, in declaration order. -/
def userFields : List String :=
  ["id", "email", "name", "isVerified", "createdAt"]

end AuthServer

namespace Dashboard

/-- Field names of the User interface declared locally in the dashboard
client component, in declaration order. -/
def userFields : List String :=
  ["id", "email", "name", "isVerified", "createdAt"]

end Dashboard

/-- User DTO as the specification describes it. -/
def specUserFields : List String :=
  ["id", "email", "name", "isVerified", "createdAt"]

/-- Note DTO as the specification describes it. -/
def specNoteFields : List String :=
  ["id", "title", "content", "createdAt", "updatedAt"]

/-! Edge middleware.  The repository holds two implementations: the file
at the canonical Next.js location src/middleware.ts, whose matcher covers
only the root path, and a fuller implementation that consults the backend
profile endpoint.  Both are embedded; a routing decision records the
redirect destination pathname together with the optional value of the
redirect query parameter. -/

inductive RouteDecision where
  | redirect (pathname : String) (redirectParam : Option String)
  | next
deriving Repr, DecidableEq

/-- Destination pathname of a routing decision, none when the request
passes through. -/
def RouteDecision.target : RouteDecision → Option String
  | RouteDecision.redirect p _ => some p
  | RouteDecision.next => none

namespace ActiveMiddleware

/-- Middleware of src/middleware.ts.  The request carries the cookies
that would witness authentication, so the authentication status is in
scope, but the source never consults it: the root path is redirected to
/signin unconditionally and every other path passes through. -/
def middleware (pathname : String) (_isAuthenticated : Bool) : RouteDecision :=
  if pathname = "/" then RouteDecision.redirect "/signin" none
  else RouteDecision.next

/-- Matcher exported next to the middleware: it is invoked for the root
path only. -/
def matcher : List String := ["/"]

end ActiveMiddleware

namespace AuthMiddleware

/-- Outcome of the profile fetch made by checkAuthentication: either the
fetch (or reading its JSON body) threw, or a response with an ok flag and
a status code came back. -/
inductive ProfileFetch where
  | thrown
  | resp (ok : Bool) (status : Nat)
deriving Repr, DecidableEq

/-- checkAuthentication of the full middleware: any thrown error yields
false, a 401 yields false, and otherwise the response must be ok with
status 200. -/
def checkAuthentication : ProfileFetch → Bool
  | ProfileFetch.thrown => false
  | ProfileFetch.resp ok status =>
      if status = 401 then false else ok && status = 200

/-- Full middleware implementation: protected routes require
authentication, auth routes reject authenticated users, and the root
path is dispatched on the authentication status. -/
def middleware (pathname : String) (isAuthenticated : Bool) : RouteDecision :=
  let protectedRoutes : List String := ["/dashboard"]
  let authRoutes : List String := ["/signin", "/signup"]
  let isProtectedRoute := protectedRoutes.any (fun route => jsStartsWith pathname route)
  let isAuthRoute := authRoutes.any (fun route => jsStartsWith pathname route)
  if isProtectedRoute && !isAuthenticated then
    RouteDecision.redirect "/signin" (some pathname)
  else if isAuthRoute && isAuthenticated then
    RouteDecision.redirect "/dashboard" none
  else if pathname = "/" then
    if isAuthenticated then RouteDecision.redirect "/dashboard" none
    else RouteDecision.redirect "/signin" none
  else RouteDecision.next

end AuthMiddleware

namespace AuthServer

/-- Result record returned by getServerAuth. -/
structure AuthResult where
  user : Option User
  isAuthenticated : Bool
deriving Repr, DecidableEq

/-- Outcome of the profile fetch made by getServerAuth.  The body field
models evaluating response.json() and then reading data.data.user: an
error means that evaluation threw (rejected promise or missing data
property), and a successful evaluation yields the user field, which may
itself be absent. -/
inductive ServerFetch where
  | thrown
  | resp (ok : Bool) (body : Except Unit (Option User))
deriving Repr

/-- A run of getServerAuth: the returned record plus whether the profile
request was issued at all. -/
structure ServerAuthRun where
  result : AuthResult
  madeRequest : Bool
deriving Repr, DecidableEq

/-- getServerAuth of the server auth helper: without an authToken cookie
it answers unauthenticated immediately; otherwise it fetches the profile
endpoint and treats every failure (thrown fetch, non-ok response, body
that cannot be read) as unauthenticated.  Only an ok response whose body
yields the user field produces an authenticated result. -/
def getServerAuth (cookieToken : Option String) (fetchResult : ServerFetch) :
    ServerAuthRun :=
  match cookieToken with
  | none => ⟨⟨none, false⟩, false⟩
  | some _ =>
    match fetchResult with
    | ServerFetch.thrown => ⟨⟨none, false⟩, true⟩
    | ServerFetch.resp ok body =>
      if !ok then ⟨⟨none, false⟩, true⟩
      else
        match body with
        | Except.error _ => ⟨⟨none, false⟩, true⟩
        | Except.ok u => ⟨⟨u, true⟩, true⟩

/-- requireAuth: produce the user, or the pathname redirected to. -/
def requireAuth (a : AuthResult) : Except String User :=
  match a.isAuthenticated, a.user with
  | true, some u => Except.ok u
  | true, none => Except.error "/signin"
  | false, _ => Except.error "/signin"

/-- redirectIfAuthenticated: the pathname redirected to, if any. -/
def redirectIfAuthenticated (a : AuthResult) : Option String :=
  if a.isAuthenticated then some "/dashboard" else none

end AuthServer

/-! Server-rendered pages. -/

/-- Result of rendering a server page: either a redirect was thrown or
content was produced. -/
inductive PageResult (α : Type) where
  | redirectTo (pathname : String)
  | render (content : α)
deriving Repr, DecidableEq

namespace Pages

/-- Dashboard page: requireAuth first, then render the dashboard client
with the returned user as initialUser. -/
def DashboardPage (a : AuthServer.AuthResult) : PageResult AuthServer.User :=
  match AuthServer.requireAuth a with
  | Except.ok u => PageResult.render u
  | Except.error p => PageResult.redirectTo p

/-- Sign-in page: redirectIfAuthenticated first, then render the sign-in
client form. -/
def SignInPage (a : AuthServer.AuthResult) : PageResult Unit :=
  match AuthServer.redirectIfAuthenticated a with
  | some p => PageResult.redirectTo p
  | none => PageResult.render ()

/-- Sign-up page: redirectIfAuthenticated first, then render the sign-up
client form. -/
def SignUpPage (a : AuthServer.AuthResult) : PageResult Unit :=
  match AuthServer.redirectIfAuthenticated a with
  | some p => PageResult.redirectTo p
  | none => PageResult.render ()

end Pages

/-! API service (src/lib/api.ts).  Axios outcomes, the errors the service
throws, and the effect of each method on the authToken slot of
localStorage and on window.location are made explicit. -/

/-- Response envelope returned by the remote API. -/
structure ApiResponse (α : Type) where
  success : Bool
  message : Option String := none
  data : Option α := none
deriving Repr, DecidableEq

/-- An error thrown into a catch block: either a genuine axios error
carrying the optional response status and the optional message of the
response body, or a plain Error carrying only its message. -/
inductive Thrown where
  | axios (status : Option Nat) (dataMessage : Option String)
  | plain (message : String)
deriving Repr, DecidableEq

/-- The isAxiosError guard used by every catch block of the client. -/
def isAxiosErrorB : Thrown → Bool
  | Thrown.axios _ _ => true
  | Thrown.plain _ => false

/-- Outcome of an awaited axios request: a response body, an axios error,
or any other thrown value. -/
inductive AxiosResult (α : Type) where
  | ok (body : α)
  | axiosErr (status : Option Nat) (dataMessage : Option String)
  | otherErr
deriving Repr, DecidableEq

/-- Outcome of the axios request made by verifyOTP, which additionally
exposes the authorization response header. -/
inductive VerifyAxiosResult (α : Type) where
  | ok (authorizationHeader : Option String) (body : α)
  | axiosErr (status : Option Nat) (dataMessage : Option String)
  | otherErr
deriving Repr, DecidableEq

/-- What a service method produces: the value returned or the error
thrown, the new content of the authToken slot, and the pathname written
to window.location if any. -/
structure ServiceResult (α : Type) where
  result : Except Thrown α
  storage : Option String
  navigation : Option String
deriving Repr

/-- Notes payload of the list endpoint (pagination fields are not read by
the client and are left out of the embedding). -/
structure NotesBody where
  notes : List Api.Note
deriving Repr, DecidableEq

/-- Single-note payload of the create endpoint. -/
structure NoteBody where
  note : Api.Note
deriving Repr, DecidableEq

/-- Innermost user payload of the verify-otp endpoint. -/
structure VerifyOTPUser where
  id : String
  email : String
  name : String
deriving Repr, DecidableEq

/-- Nested data record of the verify-otp payload. -/
structure VerifyOTPData where
  user : VerifyOTPUser
deriving Repr, DecidableEq

/-- Payload type of the verify-otp endpoint. -/
structure VerifyOTPPayload where
  data : VerifyOTPData
deriving Repr, DecidableEq

namespace ApiService

/-- Request interceptor installed by the service constructor: when the
authToken slot holds a truthy token (present and non-empty, mirroring
the if-token guard of the source), the Authorization header becomes
Bearer followed by the token; otherwise the config is returned
unchanged. -/
def requestInterceptorAuthorization (storage : Option String)
    (existing : Option String) : Option String :=
  match storage with
  | some token => if token = "" then existing else some ("Bearer " ++ token)
  | none => existing

/-- login method: returns the response body, or throws a plain Error
whose message is the response message or the fixed fallback. -/
def login (r : AxiosResult (ApiResponse String)) :
    Except Thrown (ApiResponse String) :=
  match r with
  | AxiosResult.ok body => Except.ok body
  | AxiosResult.axiosErr _ msg => Except.error (Thrown.plain (jsOr msg "Login failed"))
  | AxiosResult.otherErr => Except.error (Thrown.plain "Login failed")

/-- signup method, same shape as login with its own fallback message. -/
def signup (r : AxiosResult (ApiResponse String)) :
    Except Thrown (ApiResponse String) :=
  match r with
  | AxiosResult.ok body => Except.ok body
  | AxiosResult.axiosErr _ msg => Except.error (Thrown.plain (jsOr msg "Signup failed"))
  | AxiosResult.otherErr => Except.error (Thrown.plain "Signup failed")

/-- verifyOTP method: on a response whose authorization header starts
with the Bearer prefix, the rest of the header is stored in the
authToken slot; every error is rethrown as a plain Error. -/
def verifyOTP (storage : Option String)
    (r : VerifyAxiosResult (ApiResponse VerifyOTPPayload)) :
    Except Thrown (ApiResponse VerifyOTPPayload) × Option String :=
  match r with
  | VerifyAxiosResult.ok authHeader body =>
      let storage2 :=
        match authHeader with
        | some h => if jsStartsWith h "Bearer " then some (jsSubstringFrom h 7) else storage
        | none => storage
      (Except.ok body, storage2)
  | VerifyAxiosResult.axiosErr _ msg =>
      (Except.error (Thrown.plain (jsOr msg "OTP verification failed")), storage)
  | VerifyAxiosResult.otherErr =>
      (Except.error (Thrown.plain "OTP verification failed"), storage)

/-- getNotes method: on a 401 axios error the authToken slot is cleared
and window.location is pointed at /signin; every error is rethrown as a
plain Error. -/
def getNotes (storage : Option String)
    (r : AxiosResult (ApiResponse NotesBody)) :
    ServiceResult (ApiResponse NotesBody) :=
  match r with
  | AxiosResult.ok body => ⟨Except.ok body, storage, none⟩
  | AxiosResult.axiosErr status msg =>
      if status = some 401 then
        ⟨Except.error (Thrown.plain (jsOr msg "Get notes failed")), none, some "/signin"⟩
      else
        ⟨Except.error (Thrown.plain (jsOr msg "Get notes failed")), storage, none⟩
  | AxiosResult.otherErr =>
      ⟨Except.error (Thrown.plain "Get notes failed"), storage, none⟩

/-- createNote method: no storage or location effect; every error is
rethrown as a plain Error. -/
def createNote (storage : Option String)
    (r : AxiosResult (ApiResponse NoteBody)) :
    ServiceResult (ApiResponse NoteBody) :=
  match r with
  | AxiosResult.ok body => ⟨Except.ok body, storage, none⟩
  | AxiosResult.axiosErr _ msg =>
      ⟨Except.error (Thrown.plain (jsOr msg "Create note failed")), storage, none⟩
  | AxiosResult.otherErr =>
      ⟨Except.error (Thrown.plain "Create note failed"), storage, none⟩

/-- deleteNote method: no storage or location effect; every error is
rethrown as a plain Error. -/
def deleteNote (storage : Option String)
    (r : AxiosResult (ApiResponse String)) :
    ServiceResult (ApiResponse String) :=
  match r with
  | AxiosResult.ok body => ⟨Except.ok body, storage, none⟩
  | AxiosResult.axiosErr _ msg =>
      ⟨Except.error (Thrown.plain (jsOr msg "Delete note failed")), storage, none⟩
  | AxiosResult.otherErr =>
      ⟨Except.error (Thrown.plain "Delete note failed"), storage, none⟩

/-- logout method: after a successful post the authToken slot is cleared;
a failed post leaves the slot as it was and rethrows a plain Error. -/
def logout (storage : Option String)
    (r : AxiosResult (ApiResponse String)) :
    ServiceResult (ApiResponse String) :=
  match r with
  | AxiosResult.ok body => ⟨Except.ok body, none, none⟩
  | AxiosResult.axiosErr _ msg =>
      ⟨Except.error (Thrown.plain (jsOr msg "Logout failed")), storage, none⟩
  | AxiosResult.otherErr =>
      ⟨Except.error (Thrown.plain "Logout failed"), storage, none⟩

end ApiService

namespace Dashboard

/-- React state of the dashboard client component. -/
structure DashState where
  notes : List Api.Note
  isDialogOpen : Bool
  newNoteTitle : String
  newNoteContent : String
  isLoading : Bool
  isCreating : Bool
  error : Option String
deriving Repr, DecidableEq

/-- What one dashboard handler run produces: the state after all setters
ran, the content of the authToken slot, the pathname navigated to (by
router.push in the handler or by window.location in the service), and
whether the handler reached its API call at all. -/
structure DashOutcome where
  state : DashState
  storage : Option String
  navigation : Option String
  apiCalled : Bool
deriving Repr

/-- fetchNotes handler composed with the getNotes service method: a
successful response with a data payload replaces the notes list; a
caught axios error either routes 401 to /signin or records the message;
a caught non-axios error is ignored.  The finally block always clears
isLoading. -/
def fetchNotes (st : DashState) (storage : Option String)
    (r : AxiosResult (ApiResponse NotesBody)) : DashOutcome :=
  let svc := ApiService.getNotes storage r
  match svc.result with
  | Except.ok resp =>
      match resp.success, resp.data with
      | true, some d =>
          ⟨{ st with notes := d.notes, isLoading := false }, svc.storage, svc.navigation, true⟩
      | _, _ => ⟨{ st with isLoading := false }, svc.storage, svc.navigation, true⟩
  | Except.error e =>
      match e with
      | Thrown.axios status msg =>
          if status = some 401 then
            ⟨{ st with isLoading := false }, svc.storage, some "/signin", true⟩
          else
            ⟨{ st with error := some (jsOr msg "Failed to load notes"), isLoading := false },
              svc.storage, svc.navigation, true⟩
      | Thrown.plain _ =>
          ⟨{ st with isLoading := false }, svc.storage, svc.navigation, true⟩

/-- handleCreateNote handler composed with the createNote service
method.  A title that trims to the empty string returns before the API
call; a successful response with a payload prepends the new note, clears
both inputs and closes the dialog; caught errors follow the same
axios-error branching as fetchNotes.  The finally block always clears
isCreating. -/
def handleCreateNote (st : DashState) (storage : Option String)
    (r : AxiosResult (ApiResponse NoteBody)) : DashOutcome :=
  if jsTrim st.newNoteTitle = "" then
    ⟨st, storage, none, false⟩
  else
    let st1 := { st with isCreating := true }
    let svc := ApiService.createNote storage r
    match svc.result with
    | Except.ok resp =>
        match resp.success, resp.data with
        | true, some d =>
            ⟨{ st1 with
                notes := d.note :: st1.notes,
                newNoteTitle := "",
                newNoteContent := "",
                isDialogOpen := false,
                isCreating := false },
              svc.storage, svc.navigation, true⟩
        | _, _ => ⟨{ st1 with isCreating := false }, svc.storage, svc.navigation, true⟩
    | Except.error e =>
        match e with
        | Thrown.axios status msg =>
            if status = some 401 then
              ⟨{ st1 with isCreating := false }, svc.storage, some "/signin", true⟩
            else
              ⟨{ st1 with
                  error := some (jsOr msg "Failed to create note"),
                  isCreating := false }, svc.storage, svc.navigation, true⟩
        | Thrown.plain _ =>
            ⟨{ st1 with isCreating := false }, svc.storage, svc.navigation, true⟩

/-- handleDeleteNote handler composed with the deleteNote service
method: when the request does not throw, every note with the given id is
filtered out; caught errors follow the same axios-error branching. -/
def handleDeleteNote (st : DashState) (storage : Option String) (id : String)
    (r : AxiosResult (ApiResponse String)) : DashOutcome :=
  let svc := ApiService.deleteNote storage r
  match svc.result with
  | Except.ok _ =>
      ⟨{ st with notes := st.notes.filter (fun note => note.id != id) },
        svc.storage, svc.navigation, true⟩
  | Except.error e =>
      match e with
      | Thrown.axios status msg =>
          if status = some 401 then ⟨st, svc.storage, some "/signin", true⟩
          else
            ⟨{ st with error := some (jsOr msg "Failed to delete note") },
              svc.storage, svc.navigation, true⟩
      | Thrown.plain _ => ⟨st, svc.storage, svc.navigation, true⟩

end Dashboard

/-! Sign-in and sign-up client forms. -/

/-- React state shared by the sign-in and sign-up clients. -/
structure AuthFormState where
  isLoading : Bool
  error : Option String
  otpSent : Bool
deriving Repr, DecidableEq

/-- The request a form submission sends to the API service. -/
inductive AuthRequest where
  | login (email : String)
  | signup (name : String) (email : String) (dob : String)
  | verifyOTP (email : String) (otp : String)
deriving Repr, DecidableEq

/-- What one submission produces: the state after all setters ran, the
request that was sent, the pathname pushed to the router if any, and the
content of the authToken slot afterwards. -/
structure AuthSubmit where
  state : AuthFormState
  request : AuthRequest
  nav : Option String
  storage : Option String
deriving Repr

namespace SignInClient

/-- onSubmit of the sign-in client: before the OTP has been sent it
calls the login endpoint with the entered email and a success marks the
OTP as sent; afterwards it calls verifyOTP with the email and the
entered OTP (empty string when the optional field is missing) and a
success navigates to /dashboard.  A caught error sets the error message
only when it is an axios error.  The finally block clears isLoading. -/
def onSubmit (st : AuthFormState) (storage : Option String)
    (email : String) (otp : Option String)
    (loginR : AxiosResult (ApiResponse String))
    (verifyR : VerifyAxiosResult (ApiResponse VerifyOTPPayload)) : AuthSubmit :=
  let st0 := { st with isLoading := true, error := none }
  if st0.otpSent = false then
    let req := AuthRequest.login email
    match ApiService.login loginR with
    | Except.ok resp =>
        if resp.success then
          ⟨{ st0 with otpSent := true, error := none, isLoading := false }, req, none, storage⟩
        else ⟨{ st0 with isLoading := false }, req, none, storage⟩
    | Except.error e =>
        match e with
        | Thrown.axios _ msg =>
            ⟨{ st0 with
                error := some (jsOr msg "Authentication failed. Please try again."),
                isLoading := false }, req, none, storage⟩
        | Thrown.plain _ => ⟨{ st0 with isLoading := false }, req, none, storage⟩
  else
    let req := AuthRequest.verifyOTP email (otp.getD "")
    match ApiService.verifyOTP storage verifyR with
    | (Except.ok resp, storage2) =>
        if resp.success then
          ⟨{ st0 with isLoading := false }, req, some "/dashboard", storage2⟩
        else ⟨{ st0 with isLoading := false }, req, none, storage2⟩
    | (Except.error e, storage2) =>
        match e with
        | Thrown.axios _ msg =>
            ⟨{ st0 with
                error := some (jsOr msg "Authentication failed. Please try again."),
                isLoading := false }, req, none, storage2⟩
        | Thrown.plain _ => ⟨{ st0 with isLoading := false }, req, none, storage2⟩

end SignInClient

namespace SignUpClient

/-- onSubmit of the sign-up client: identical two-phase structure, with
the first phase posting the signup endpoint with the entered name, email
and date of birth. -/
def onSubmit (st : AuthFormState) (storage : Option String)
    (name : String) (email : String) (dob : String) (otp : Option String)
    (signupR : AxiosResult (ApiResponse String))
    (verifyR : VerifyAxiosResult (ApiResponse VerifyOTPPayload)) : AuthSubmit :=
  let st0 := { st with isLoading := true, error := none }
  if st0.otpSent = false then
    let req := AuthRequest.signup name email dob
    match ApiService.signup signupR with
    | Except.ok resp =>
        if resp.success then
          ⟨{ st0 with otpSent := true, error := none, isLoading := false }, req, none, storage⟩
        else ⟨{ st0 with isLoading := false }, req, none, storage⟩
    | Except.error e =>
        match e with
        | Thrown.axios _ msg =>
            ⟨{ st0 with
                error := some (jsOr msg "Authentication failed. Please try again."),
                isLoading := false }, req, none, storage⟩
        | Thrown.plain _ => ⟨{ st0 with isLoading := false }, req, none, storage⟩
  else
    let req := AuthRequest.verifyOTP email (otp.getD "")
    match ApiService.verifyOTP storage verifyR with
    | (Except.ok resp, storage2) =>
        if resp.success then
          ⟨{ st0 with isLoading := false }, req, some "/dashboard", storage2⟩
        else ⟨{ st0 with isLoading := false }, req, none, storage2⟩
    | (Except.error e, storage2) =>
        match e with
        | Thrown.axios _ msg =>
            ⟨{ st0 with
                error := some (jsOr msg "Authentication failed. Please try again."),
                isLoading := false }, req, none, storage2⟩
        | Thrown.plain _ => ⟨{ st0 with isLoading := false }, req, none, storage2⟩

end SignUpClient

/-! Shared helper lemmas about the page guards and the dashboard
fetch handler, used by several of the claim theorems below. -/

/-- An unauthenticated auth result makes the dashboard page redirect. -/
theorem dashboardPage_unauth (a : AuthServer.AuthResult)
    (h : a.isAuthenticated = false) :
    Pages.DashboardPage a = PageResult.redirectTo "/signin" := by
  obtain ⟨user, isAuth⟩ := a
  simp only at h
  subst h
  cases user <;> rfl

/-- An authenticated auth result makes the sign-in page redirect. -/
theorem signInPage_auth (a : AuthServer.AuthResult)
    (h : a.isAuthenticated = true) :
    Pages.SignInPage a = PageResult.redirectTo "/dashboard" := by
  obtain ⟨user, isAuth⟩ := a
  simp only at h
  subst h
  rfl

/-- An authenticated auth result makes the sign-up page redirect. -/
theorem signUpPage_auth (a : AuthServer.AuthResult)
    (h : a.isAuthenticated = true) :
    Pages.SignUpPage a = PageResult.redirectTo "/dashboard" := by
  obtain ⟨user, isAuth⟩ := a
  simp only at h
  subst h
  rfl

/-- A 401 axios failure of the notes fetch ends in a navigation to
/signin (issued by the service method while clearing the token). -/
theorem fetchNotes_unauthorized_nav (st : Dashboard.DashState)
    (storage : Option String) (msg : Option String) :
    (Dashboard.fetchNotes st storage (AxiosResult.axiosErr (some 401) msg)).navigation =
      some "/signin" := by
  simp [Dashboard.fetchNotes, ApiService.getNotes]

/-! Claim theorems. -/

/-- C2 counterexample: the middleware at the canonical location
src/middleware.ts does not redirect an authenticated request for the
root path to /dashboard, as the claim states; it sends it to /signin. -/
theorem root_redirect_ignores_auth_cx :
    ActiveMiddleware.middleware "/" true = RouteDecision.redirect "/signin" none
    ∧ (ActiveMiddleware.middleware "/" true).target = some "/signin"
    ∧ (some "/signin" : Option String) ≠ some "/dashboard" := by
  refine ⟨rfl, rfl, by decide⟩

/-- C2 (amended): for every request to the root path, the active edge
middleware redirects to /signin regardless of the authentication status,
and never serves the root path itself. -/
theorem root_redirect_unconditional :
    ∀ isAuthenticated : Bool,
      ActiveMiddleware.middleware "/" isAuthenticated =
          RouteDecision.redirect "/signin" none
      ∧ ActiveMiddleware.middleware "/" isAuthenticated ≠ RouteDecision.next := by
  intro b
  exact ⟨rfl, by simp [ActiveMiddleware.middleware]⟩

/-- C5 counterexample: the User interface exported by the API service
module does not consist of exactly the five fields the claim lists; it
also declares dob. -/
theorem api_user_fields_cx :
    Api.userFields ≠ specUserFields ∧ "dob" ∈ Api.userFields := by
  decide

/-- C5 (amended): the Note interface and the User interfaces of the
server auth helper and the dashboard client match the spec DTOs exactly,
while the User interface of the API service module carries the one
additional field dob. -/
theorem entity_fields_amended :
    AuthServer.userFields = specUserFields
    ∧ Dashboard.userFields = specUserFields
    ∧ Api.noteFields = specNoteFields
    ∧ "dob" ∈ Api.userFields
    ∧ Api.userFields.erase "dob" = specUserFields := by
  decide

/-- C9: getServerAuth is total and fails closed.  Without the authToken
cookie it answers unauthenticated without issuing the profile request; a
thrown fetch or a non-ok response also answers unauthenticated; and the
result is authenticated only when the user field was taken from the body
of an ok response. -/
theorem getServerAuth_fail_closed :
    ∀ (ck : Option String) (f : AuthServer.ServerFetch),
      (ck = none →
        AuthServer.getServerAuth ck f = ⟨⟨none, false⟩, false⟩)
      ∧ (f = AuthServer.ServerFetch.thrown →
          (AuthServer.getServerAuth ck f).result = ⟨none, false⟩)
      ∧ (∀ body, f = AuthServer.ServerFetch.resp false body →
          (AuthServer.getServerAuth ck f).result = ⟨none, false⟩)
      ∧ ((AuthServer.getServerAuth ck f).result.isAuthenticated = true →
          ∃ u, f = AuthServer.ServerFetch.resp true (Except.ok u)
            ∧ (AuthServer.getServerAuth ck f).result.user = u
            ∧ ck ≠ none) := by
  intro ck f
  cases ck with
  | none =>
    refine ⟨fun _ => rfl, fun _ => rfl, fun body _ => rfl, ?_⟩
    intro h
    simp [AuthServer.getServerAuth] at h
  | some tok =>
    cases f with
    | thrown =>
      refine ⟨fun h => by simp at h, fun _ => rfl, fun body h => by simp at h, ?_⟩
      intro h
      simp [AuthServer.getServerAuth] at h
    | resp ok body =>
      cases ok with
      | false =>
        refine ⟨fun h => by simp at h, fun h => by simp at h, fun b _ => rfl, ?_⟩
        intro h
        simp [AuthServer.getServerAuth] at h
      | true =>
        cases body with
        | error e =>
          refine ⟨fun h => by simp at h, fun h => by simp at h,
            fun b h => by simp at h, ?_⟩
          intro h
          simp [AuthServer.getServerAuth] at h
        | ok u =>
          refine ⟨fun h => by simp at h, fun h => by simp at h,
            fun b h => by simp at h, ?_⟩
          intro _
          exact ⟨u, rfl, rfl, by simp⟩

/-- C9 witness: concrete runs of getServerAuth through the theorem. -/
theorem getServerAuth_fail_closed_w :
    AuthServer.getServerAuth none AuthServer.ServerFetch.thrown = ⟨⟨none, false⟩, false⟩
    ∧ (AuthServer.getServerAuth (some "tk") AuthServer.ServerFetch.thrown).result =
        ⟨none, false⟩
    ∧ (AuthServer.getServerAuth (some "tk")
        (AuthServer.ServerFetch.resp false (Except.error ()))).result = ⟨none, false⟩ := by
  have h := getServerAuth_fail_closed
  exact ⟨(h none AuthServer.ServerFetch.thrown).1 rfl,
    (h (some "tk") AuthServer.ServerFetch.thrown).2.1 rfl,
    (h (some "tk") (AuthServer.ServerFetch.resp false (Except.error ()))).2.2.1
      (Except.error ()) rfl⟩

/-- C7: the dashboard page renders only when requireAuth produced a
user, an unauthenticated request to it is redirected to /signin, and an
authenticated request to the sign-in or sign-up page is redirected to
/dashboard so their forms are never rendered for an authenticated
user. -/
theorem pages_guarded :
    (∀ a : AuthServer.AuthResult,
        a.isAuthenticated = false ∨ a.user = none →
          Pages.DashboardPage a = PageResult.redirectTo "/signin")
    ∧ (∀ (a : AuthServer.AuthResult) (u : AuthServer.User),
        Pages.DashboardPage a = PageResult.render u →
          AuthServer.requireAuth a = Except.ok u
          ∧ a.isAuthenticated = true ∧ a.user = some u)
    ∧ (∀ a : AuthServer.AuthResult,
        a.isAuthenticated = true →
          Pages.SignInPage a = PageResult.redirectTo "/dashboard"
          ∧ Pages.SignUpPage a = PageResult.redirectTo "/dashboard") := by
  refine ⟨?_, ?_, ?_⟩
  · rintro ⟨user, isAuth⟩ (h | h)
    · exact dashboardPage_unauth ⟨user, isAuth⟩ h
    · simp only at h
      subst h
      cases isAuth <;> rfl
  · rintro ⟨user, isAuth⟩ u h
    cases isAuth with
    | false =>
      cases user <;> simp [Pages.DashboardPage, AuthServer.requireAuth] at h
    | true =>
      cases user with
      | none => simp [Pages.DashboardPage, AuthServer.requireAuth] at h
      | some v =>
        simp [Pages.DashboardPage, AuthServer.requireAuth] at h
        subst h
        exact ⟨rfl, rfl, rfl⟩
  · intro a h
    exact ⟨signInPage_auth a h, signUpPage_auth a h⟩

/-- C7 witness: the guards evaluated at concrete auth results. -/
theorem pages_guarded_w :
    Pages.DashboardPage ⟨none, false⟩ = PageResult.redirectTo "/signin"
    ∧ Pages.SignInPage ⟨some ⟨"u1", "a@b.c", "Ann", true, "2024-01-01"⟩, true⟩ =
        PageResult.redirectTo "/dashboard" := by
  have h := pages_guarded
  exact ⟨h.1 ⟨none, false⟩ (Or.inl rfl),
    (h.2.2 ⟨some ⟨"u1", "a@b.c", "Ann", true, "2024-01-01"⟩, true⟩ rfl).1⟩

/-- C1: on the paths handled by more than one gating implementation the
implementations agree.  An unauthenticated request for /dashboard is
sent to /signin by the full middleware, by the server guard of the
dashboard page, and by the dashboard client when its notes fetch comes
back 401; an authenticated request for /signin or /signup is sent to
/dashboard by the full middleware and by the server guard of both
pages.  The middleware at src/middleware.ts handles neither path (its
matcher covers only the root), so it cannot disagree. -/
theorem gating_agreement :
    AuthMiddleware.middleware "/dashboard" false =
        RouteDecision.redirect "/signin" (some "/dashboard")
    ∧ (∀ a : AuthServer.AuthResult, a.isAuthenticated = false →
        Pages.DashboardPage a = PageResult.redirectTo "/signin")
    ∧ (∀ (st : Dashboard.DashState) (storage msg : Option String),
        (Dashboard.fetchNotes st storage
            (AxiosResult.axiosErr (some 401) msg)).navigation = some "/signin")
    ∧ AuthMiddleware.middleware "/signin" true = RouteDecision.redirect "/dashboard" none
    ∧ AuthMiddleware.middleware "/signup" true = RouteDecision.redirect "/dashboard" none
    ∧ (∀ a : AuthServer.AuthResult, a.isAuthenticated = true →
        Pages.SignInPage a = PageResult.redirectTo "/dashboard"
        ∧ Pages.SignUpPage a = PageResult.redirectTo "/dashboard")
    ∧ ActiveMiddleware.middleware "/dashboard" false = RouteDecision.next
    ∧ ActiveMiddleware.middleware "/signin" true = RouteDecision.next
    ∧ "/dashboard" ∉ ActiveMiddleware.matcher
    ∧ "/signin" ∉ ActiveMiddleware.matcher
    ∧ "/signup" ∉ ActiveMiddleware.matcher := by
  refine ⟨by decide, dashboardPage_unauth, fetchNotes_unauthorized_nav,
    by decide, by decide, ?_, by decide, by decide, by decide, by decide, by decide⟩
  intro a h
  exact ⟨signInPage_auth a h, signUpPage_auth a h⟩

/-- C1 witness: the agreement evaluated at concrete requests. -/
theorem gating_agreement_w :
    Pages.DashboardPage ⟨some ⟨"u2", "b@c.d", "Bo", true, "2024-02-02"⟩, false⟩ =
        PageResult.redirectTo "/signin"
    ∧ (Dashboard.fetchNotes ⟨[], false, "", "", true, false, none⟩ none
        (AxiosResult.axiosErr (some 401) none)).navigation = some "/signin"
    ∧ Pages.SignUpPage ⟨none, true⟩ = PageResult.redirectTo "/dashboard" := by
  have h := gating_agreement
  exact ⟨h.2.1 ⟨some ⟨"u2", "b@c.d", "Bo", true, "2024-02-02"⟩, false⟩ rfl,
    h.2.2.1 ⟨[], false, "", "", true, false, none⟩ none none,
    (h.2.2.2.2.2.1 ⟨none, true⟩ rfl).2⟩

/-- C8: a create-note submission whose title trims to the empty string
returns before the API call and leaves the whole component state, in
particular the notes list, the dialog flag and both input values,
unchanged. -/
theorem create_note_empty_title_frame :
    ∀ (st : Dashboard.DashState) (storage : Option String)
      (r : AxiosResult (ApiResponse NoteBody)),
      jsTrim st.newNoteTitle = "" →
        (Dashboard.handleCreateNote st storage r).apiCalled = false
        ∧ (Dashboard.handleCreateNote st storage r).state = st
        ∧ (Dashboard.handleCreateNote st storage r).state.notes = st.notes
        ∧ (Dashboard.handleCreateNote st storage r).state.isDialogOpen = st.isDialogOpen
        ∧ (Dashboard.handleCreateNote st storage r).state.newNoteTitle = st.newNoteTitle
        ∧ (Dashboard.handleCreateNote st storage r).state.newNoteContent =
            st.newNoteContent := by
  intro st storage r h
  simp [Dashboard.handleCreateNote, h]

/-- C8 witness: a submission with a whitespace title changes nothing. -/
theorem create_note_empty_title_frame_w :
    (Dashboard.handleCreateNote ⟨[], true, "  ", "draft", false, false, none⟩ (some "tk")
        (AxiosResult.ok ⟨true, none, some ⟨⟨"n9", "t", "c", "d1", "d2"⟩⟩⟩)).apiCalled = false
    ∧ (Dashboard.handleCreateNote ⟨[], true, "  ", "draft", false, false, none⟩ (some "tk")
        (AxiosResult.ok ⟨true, none, some ⟨⟨"n9", "t", "c", "d1", "d2"⟩⟩⟩)).state =
        ⟨[], true, "  ", "draft", false, false, none⟩ := by
  have h := create_note_empty_title_frame ⟨[], true, "  ", "draft", false, false, none⟩
    (some "tk") (AxiosResult.ok ⟨true, none, some ⟨⟨"n9", "t", "c", "d1", "d2"⟩⟩⟩)
    (by decide)
  exact ⟨h.1, h.2.1⟩

/-- C10: a successful create prepends the returned note to the list,
and a delete removes exactly the notes carrying the given id, keeping
the rest in their original order. -/
theorem notes_list_mutations :
    (∀ (st : Dashboard.DashState) (storage : Option String)
        (resp : ApiResponse NoteBody) (d : NoteBody),
      jsTrim st.newNoteTitle ≠ "" → resp.success = true → resp.data = some d →
        (Dashboard.handleCreateNote st storage (AxiosResult.ok resp)).state.notes =
          d.note :: st.notes)
    ∧ (∀ (st : Dashboard.DashState) (storage : Option String) (id : String)
        (resp : ApiResponse String),
        ((Dashboard.handleDeleteNote st storage id (AxiosResult.ok resp)).state.notes =
            st.notes.filter (fun note => note.id != id))
        ∧ (∀ n : Api.Note,
            n ∈ (Dashboard.handleDeleteNote st storage id (AxiosResult.ok resp)).state.notes ↔
              n ∈ st.notes ∧ n.id ≠ id)
        ∧ ((Dashboard.handleDeleteNote st storage id
              (AxiosResult.ok resp)).state.notes).Sublist st.notes) := by
  constructor
  · intro st storage resp d hne hs hd
    simp [Dashboard.handleCreateNote, ApiService.createNote, hne, hs, hd]
  · intro st storage id resp
    refine ⟨rfl, ?_, ?_⟩
    · intro n
      simp [Dashboard.handleDeleteNote, ApiService.deleteNote, List.mem_filter]
    · exact List.filter_sublist st.notes

/-- C10 witness: one concrete create and one concrete delete. -/
theorem notes_list_mutations_w :
    (Dashboard.handleCreateNote
        ⟨[⟨"n1", "a", "b", "c", "d"⟩], true, "Plan", "text", false, false, none⟩ none
        (AxiosResult.ok ⟨true, none, some ⟨⟨"n2", "t", "u", "v", "w"⟩⟩⟩)).state.notes =
      [⟨"n2", "t", "u", "v", "w"⟩, ⟨"n1", "a", "b", "c", "d"⟩]
    ∧ (Dashboard.handleDeleteNote
        ⟨[⟨"n1", "a", "b", "c", "d"⟩, ⟨"n2", "t", "u", "v", "w"⟩], false, "", "", false,
          false, none⟩ none "n1" (AxiosResult.ok ⟨true, none, none⟩)).state.notes =
      [⟨"n2", "t", "u", "v", "w"⟩] := by
  have h1 := notes_list_mutations.1
    ⟨[⟨"n1", "a", "b", "c", "d"⟩], true, "Plan", "text", false, false, none⟩ none
    ⟨true, none, some ⟨⟨"n2", "t", "u", "v", "w"⟩⟩⟩ ⟨⟨"n2", "t", "u", "v", "w"⟩⟩
    (by decide) rfl rfl
  have h2 := (notes_list_mutations.2
    ⟨[⟨"n1", "a", "b", "c", "d"⟩, ⟨"n2", "t", "u", "v", "w"⟩], false, "", "", false,
      false, none⟩ none "n1" ⟨true, none, none⟩).1
  exact ⟨h1, h2.trans (by decide)⟩

/-- C4: the dashboard error taxonomy is broken by the service layer.
Every service method rethrows axios failures as plain Error values, so
the isAxiosError branches of the dashboard handlers never run: a non-401
failure of create (or fetch) leaves the displayed error empty instead of
showing the server message, and a 401 failure of create or delete
triggers no redirect at all. -/
theorem dashboard_error_handling_bug :
    ((Dashboard.handleCreateNote ⟨[], true, "Groceries", "milk", false, false, none⟩
        (some "tok") (AxiosResult.axiosErr (some 500) (some "Internal error"))).state.error =
      none)
    ∧ ((Dashboard.handleCreateNote ⟨[], true, "Groceries", "milk", false, false, none⟩
        (some "tok") (AxiosResult.axiosErr (some 500) (some "Internal error"))).navigation =
      none)
    ∧ ((Dashboard.handleCreateNote ⟨[], true, "Groceries", "milk", false, false, none⟩
        (some "tok") (AxiosResult.axiosErr (some 401) none)).navigation = none)
    ∧ ((Dashboard.handleDeleteNote ⟨[], false, "", "", false, false, none⟩
        (some "tok") "n1" (AxiosResult.axiosErr (some 401) none)).navigation = none)
    ∧ ((Dashboard.fetchNotes ⟨[], false, "", "", true, false, none⟩
        (some "tok") (AxiosResult.axiosErr (some 500) (some "Server down"))).state.error =
      none)
    ∧ ((Dashboard.fetchNotes ⟨[], false, "", "", true, false, none⟩
        (some "tok") (AxiosResult.axiosErr (some 401) none)).navigation = some "/signin") := by
  refine ⟨?_, ?_, ?_, ?_, ?_, ?_⟩ <;> decide

/-- C6 counterexample: the attach half of the claim fails at an empty
stored token.  An OTP verification response whose authorization header
is exactly the Bearer prefix is in the scope of the claim and stores the
empty token, but the interceptor, whose truthiness guard rejects the
empty string, then attaches no Authorization header to a subsequent
request instead of the Bearer header the claim asserts. -/
theorem token_attach_empty_cx :
    (ApiService.verifyOTP none
        (VerifyAxiosResult.ok (some "Bearer ") ⟨true, none, none⟩)).2 = some ""
    ∧ ApiService.requestInterceptorAuthorization (some "") none = none
    ∧ (none : Option String) ≠ some ("Bearer " ++ "") := by
  refine ⟨by decide, rfl, by decide⟩

/-- C6 (amended): token handling is storage-only.  A verification
response whose authorization header starts with the Bearer prefix has
the rest of the header stored as the token; the request interceptor
attaches a stored token as a Bearer header whenever that token is
non-empty (an empty stored token is falsy and attaches nothing); and no
service method produces a token that did not come in through verifyOTP:
each either keeps the slot unchanged or clears it, and verifyOTP either
keeps it or stores the header remainder. -/
theorem token_storage_only :
    (∀ (storage : Option String) (h : String) (body : ApiResponse VerifyOTPPayload),
        jsStartsWith h "Bearer " = true →
          (ApiService.verifyOTP storage (VerifyAxiosResult.ok (some h) body)).2 =
            some (jsSubstringFrom h 7))
    ∧ (∀ (token : String) (existing : Option String), token ≠ "" →
        ApiService.requestInterceptorAuthorization (some token) existing =
          some ("Bearer " ++ token))
    ∧ (∀ (storage : Option String) (r : AxiosResult (ApiResponse NotesBody)),
        (ApiService.getNotes storage r).storage = storage
        ∨ (ApiService.getNotes storage r).storage = none)
    ∧ (∀ (storage : Option String) (r : AxiosResult (ApiResponse NoteBody)),
        (ApiService.createNote storage r).storage = storage)
    ∧ (∀ (storage : Option String) (r : AxiosResult (ApiResponse String)),
        (ApiService.deleteNote storage r).storage = storage)
    ∧ (∀ (storage : Option String) (r : AxiosResult (ApiResponse String)),
        (ApiService.logout storage r).storage = storage
        ∨ (ApiService.logout storage r).storage = none)
    ∧ (∀ (storage : Option String) (r : VerifyAxiosResult (ApiResponse VerifyOTPPayload)),
        (ApiService.verifyOTP storage r).2 = storage
        ∨ ∃ h body, r = VerifyAxiosResult.ok (some h) body
            ∧ jsStartsWith h "Bearer " = true
            ∧ (ApiService.verifyOTP storage r).2 = some (jsSubstringFrom h 7)) := by
  refine ⟨?_, ?_, ?_, ?_, ?_, ?_, ?_⟩
  · intro storage h body hb
    simp [ApiService.verifyOTP, hb]
  · intro token existing h
    simp [ApiService.requestInterceptorAuthorization, h]
  · intro storage r
    cases r with
    | ok body => exact Or.inl rfl
    | axiosErr status msg =>
      by_cases h401 : status = some 401
      · exact Or.inr (by simp [ApiService.getNotes, h401])
      · exact Or.inl (by simp [ApiService.getNotes, h401])
    | otherErr => exact Or.inl rfl
  · intro storage r
    cases r <;> rfl
  · intro storage r
    cases r <;> rfl
  · intro storage r
    cases r with
    | ok body => exact Or.inr rfl
    | axiosErr status msg => exact Or.inl rfl
    | otherErr => exact Or.inl rfl
  · intro storage r
    cases r with
    | ok hdr body =>
      cases hdr with
      | none => exact Or.inl rfl
      | some h =>
        cases hb : jsStartsWith h "Bearer " with
        | false => exact Or.inl (by simp [ApiService.verifyOTP, hb])
        | true => exact Or.inr ⟨h, body, rfl, hb, by simp [ApiService.verifyOTP, hb]⟩
    | axiosErr status msg => exact Or.inl rfl
    | otherErr => exact Or.inl rfl

/-- C6 witness: a concrete non-empty Bearer header is stored and
attached. -/
theorem token_storage_only_w :
    (ApiService.verifyOTP none
        (VerifyAxiosResult.ok (some "Bearer abc123") ⟨true, none, none⟩)).2 = some "abc123"
    ∧ ApiService.requestInterceptorAuthorization (some "abc123") none =
        some "Bearer abc123" := by
  have h := token_storage_only
  have h1 := h.1 none "Bearer abc123" ⟨true, none, none⟩ (by decide)
  have h2 := h.2.1 "abc123" none (by decide)
  exact ⟨h1.trans (by decide), h2.trans (by decide)⟩

/-- C3: both auth clients follow the two-phase email plus OTP flow.
Before the OTP has been sent, a submission calls the login endpoint with
the entered email (respectively the signup endpoint with name, email and
date of birth) and a successful response marks the OTP as sent without
navigating; after the OTP has been sent, a submission calls the
verify-OTP endpoint with the email and the entered OTP and a successful
response navigates to /dashboard. -/
theorem two_phase_auth_flow :
    (∀ (st : AuthFormState) (storage : Option String) (email : String)
        (otp : Option String) (loginR : AxiosResult (ApiResponse String))
        (verifyR : VerifyAxiosResult (ApiResponse VerifyOTPPayload)),
      (st.otpSent = false →
        (SignInClient.onSubmit st storage email otp loginR verifyR).request =
            AuthRequest.login email
        ∧ ∀ resp, loginR = AxiosResult.ok resp → resp.success = true →
            (SignInClient.onSubmit st storage email otp loginR verifyR).state.otpSent = true
            ∧ (SignInClient.onSubmit st storage email otp loginR verifyR).nav = none)
      ∧ (st.otpSent = true →
        (SignInClient.onSubmit st storage email otp loginR verifyR).request =
            AuthRequest.verifyOTP email (otp.getD "")
        ∧ ∀ hdr resp, verifyR = VerifyAxiosResult.ok hdr resp → resp.success = true →
            (SignInClient.onSubmit st storage email otp loginR verifyR).nav =
              some "/dashboard"))
    ∧ (∀ (st : AuthFormState) (storage : Option String)
        (name email dob : String) (otp : Option String)
        (signupR : AxiosResult (ApiResponse String))
        (verifyR : VerifyAxiosResult (ApiResponse VerifyOTPPayload)),
      (st.otpSent = false →
        (SignUpClient.onSubmit st storage name email dob otp signupR verifyR).request =
            AuthRequest.signup name email dob
        ∧ ∀ resp, signupR = AxiosResult.ok resp → resp.success = true →
            (SignUpClient.onSubmit st storage name email dob otp signupR
                verifyR).state.otpSent = true
            ∧ (SignUpClient.onSubmit st storage name email dob otp signupR verifyR).nav =
                none)
      ∧ (st.otpSent = true →
        (SignUpClient.onSubmit st storage name email dob otp signupR verifyR).request =
            AuthRequest.verifyOTP email (otp.getD "")
        ∧ ∀ hdr resp, verifyR = VerifyAxiosResult.ok hdr resp → resp.success = true →
            (SignUpClient.onSubmit st storage name email dob otp signupR verifyR).nav =
              some "/dashboard")) := by
  constructor
  · intro st storage email otp loginR verifyR
    obtain ⟨il, er, os⟩ := st
    constructor
    · intro hos
      simp only at hos
      subst hos
      constructor
      · cases loginR with
        | ok resp =>
          cases hs : resp.success <;>
            simp [SignInClient.onSubmit, ApiService.login, hs]
        | axiosErr status msg => simp [SignInClient.onSubmit, ApiService.login]
        | otherErr => simp [SignInClient.onSubmit, ApiService.login]
      · intro resp heq hs
        subst heq
        simp [SignInClient.onSubmit, ApiService.login, hs]
    · intro hos
      simp only at hos
      subst hos
      constructor
      · cases verifyR with
        | ok hdr resp =>
          cases hs : resp.success <;> cases hdr <;>
            simp [SignInClient.onSubmit, ApiService.verifyOTP, hs]
        | axiosErr status msg => simp [SignInClient.onSubmit, ApiService.verifyOTP]
        | otherErr => simp [SignInClient.onSubmit, ApiService.verifyOTP]
      · intro hdr resp heq hs
        subst heq
        cases hdr <;>
          simp [SignInClient.onSubmit, ApiService.verifyOTP, hs]
  · intro st storage name email dob otp signupR verifyR
    obtain ⟨il, er, os⟩ := st
    constructor
    · intro hos
      simp only at hos
      subst hos
      constructor
      · cases signupR with
        | ok resp =>
          cases hs : resp.success <;>
            simp [SignUpClient.onSubmit, ApiService.signup, hs]
        | axiosErr status msg => simp [SignUpClient.onSubmit, ApiService.signup]
        | otherErr => simp [SignUpClient.onSubmit, ApiService.signup]
      · intro resp heq hs
        subst heq
        simp [SignUpClient.onSubmit, ApiService.signup, hs]
    · intro hos
      simp only at hos
      subst hos
      constructor
      · cases verifyR with
        | ok hdr resp =>
          cases hs : resp.success <;> cases hdr <;>
            simp [SignUpClient.onSubmit, ApiService.verifyOTP, hs]
        | axiosErr status msg => simp [SignUpClient.onSubmit, ApiService.verifyOTP]
        | otherErr => simp [SignUpClient.onSubmit, ApiService.verifyOTP]
      · intro hdr resp heq hs
        subst heq
        cases hdr <;>
          simp [SignUpClient.onSubmit, ApiService.verifyOTP, hs]

/-- C3 witness: one concrete submission in each phase of each client. -/
theorem two_phase_auth_flow_w :
    ((SignInClient.onSubmit ⟨false, none, false⟩ none "a@b.c" none
        (AxiosResult.ok ⟨true, none, none⟩) VerifyAxiosResult.otherErr).request =
      AuthRequest.login "a@b.c")
    ∧ ((SignInClient.onSubmit ⟨false, none, false⟩ none "a@b.c" none
        (AxiosResult.ok ⟨true, none, none⟩) VerifyAxiosResult.otherErr).state.otpSent = true)
    ∧ ((SignInClient.onSubmit ⟨false, none, true⟩ none "a@b.c" (some "123456")
        (AxiosResult.otherErr)
        (VerifyAxiosResult.ok none ⟨true, none, none⟩)).nav = some "/dashboard")
    ∧ ((SignUpClient.onSubmit ⟨false, none, false⟩ none "Ann" "a@b.c" "2000-01-01" none
        (AxiosResult.ok ⟨true, none, none⟩) VerifyAxiosResult.otherErr).request =
      AuthRequest.signup "Ann" "a@b.c" "2000-01-01")
    ∧ ((SignUpClient.onSubmit ⟨false, none, true⟩ none "Ann" "a@b.c" "2000-01-01"
        (some "123456") AxiosResult.otherErr
        (VerifyAxiosResult.ok none ⟨true, none, none⟩)).nav = some "/dashboard") := by
  have h := two_phase_auth_flow
  have hsi := h.1 ⟨false, none, false⟩ none "a@b.c" none
    (AxiosResult.ok ⟨true, none, none⟩) VerifyAxiosResult.otherErr
  have hsi2 := h.1 ⟨false, none, true⟩ none "a@b.c" (some "123456")
    AxiosResult.otherErr (VerifyAxiosResult.ok none ⟨true, none, none⟩)
  have hsu := h.2 ⟨false, none, false⟩ none "Ann" "a@b.c" "2000-01-01" none
    (AxiosResult.ok ⟨true, none, none⟩) VerifyAxiosResult.otherErr
  have hsu2 := h.2 ⟨false, none, true⟩ none "Ann" "a@b.c" "2000-01-01" (some "123456")
    AxiosResult.otherErr (VerifyAxiosResult.ok none ⟨true, none, none⟩)
  exact ⟨(hsi.1 rfl).1,
    ((hsi.1 rfl).2 ⟨true, none, none⟩ rfl rfl).1,
    (hsi2.2 rfl).2 none ⟨true, none, none⟩ rfl rfl,
    (hsu.1 rfl).1,
    (hsu2.2 rfl).2 none ⟨true, none, none⟩ rfl rfl⟩

end HdNotes
